import Mathlib

/-!
Shallow embedding of `src/ml/interface/streamlit_app.py` (the "Portfolio
Navigator" Streamlit page).

The page is a single top-level script that Streamlit re-runs on every
interaction ("render").  Externally it calls llama-index components:
`SimpleDirectoryReader(...).load_data()`, `VectorStoreIndex.from_documents`,
`index.as_query_engine().query(...)` and `LlamaParse(...).load_data(...)`.
Those components are modelled by an abstract, deterministic `Services`
record (the Azure model is called with `temperature=0.0`); each service call
may fail, modelling a raised Python exception, which is never caught in the
script.  `M` is the script monad: it threads a `Trace` of external calls and
rendered outputs and aborts on the first uncaught exception, keeping the
trace made so far (the calls that were already issued when the exception was
raised).

Python string truthiness is modelled on answers as `≠ ""`, and the
filesystem as an association list from path to file content, with
`FS.write` shadowing older entries (overwrite-on-upload).
-/

namespace PortfolioNavigator

/-- The file content at a path (the uploaded bytes), abstract as a string. -/
abbrev Content := String

/-- The local filesystem: newest write first; lookup returns the newest entry. -/
abbrev FS := List (String × Content)

def FS.lookup (fs : FS) (p : String) : Option Content :=
  match fs with
  | [] => none
  | (q, c) :: rest => if q = p then some c else FS.lookup rest p

/-- `open(path, "wb"); f.write(bytes)` — overwrites whatever was at `path`. -/
def FS.write (fs : FS) (p : String) (c : Content) : FS := (p, c) :: fs

/-- The external llama-index / llama-parse services, abstract but
deterministic.  `Doc` is a parsed document object, `Index` an in-memory
vector index.  Each fallible call returns `Except`: `.error` models a raised
exception. -/
structure Services where
  Doc : Type
  Index : Type
  /-- `SimpleDirectoryReader(input_files=[p], required_exts=[".pdf"]).load_data()`
  applied to the content found at the path. -/
  loadData : Content → Except String (List Doc)
  /-- `VectorStoreIndex.from_documents(docs)` (assumed not to raise). -/
  fromDocuments : List Doc → Index
  /-- `index.as_query_engine()` followed by `.query(question)`; the
  `Option String` is the custom `text_qa_template` installed via
  `update_prompts` (`none` when the default template is used). -/
  queryEngine : Index → Option String → String → Except String String
  /-- `LlamaParse(result_type="markdown", num_workers=8).load_data(p)`
  applied to the content found at the path. -/
  llamaParse : Content → Except String (List Doc)

/-- One external call issued by the script. -/
inductive Call where
  /-- `SimpleDirectoryReader(...).load_data()` on a path (raises when the
  file is missing). -/
  | load (path : String)
  /-- `VectorStoreIndex.from_documents(...)`. -/
  | buildIndex
  /-- `query_engine.query(question)` — one model round trip. -/
  | query (question : String)
  /-- `LlamaParse(...).load_data(path)`. -/
  | parse (path : String)
deriving DecidableEq, Repr

/-- Where a piece of text is rendered. -/
inductive Out where
  /-- `processing_container` status line. -/
  | status
  /-- Overview tab. -/
  | ovTab
  /-- General Information tab. -/
  | kvTab
  /-- Risk Analysis tab. -/
  | rgTab
  /-- Wirkungsmatrix tab. -/
  | wTab
  /-- Recommended Actions tab. -/
  | acTab
  /-- Suggestions tab, column 1. -/
  | fTab
  /-- Suggestions tab, column 2 — the ad-hoc search column. -/
  | searchCol
  /-- Page-level markdown. -/
  | main
deriving DecidableEq, Repr

/-- What a render did: the external calls issued and the text rendered, in
order. -/
structure Trace where
  calls : List Call
  outs : List (Out × String)
deriving DecidableEq, Repr

def Trace.empty : Trace := { calls := [], outs := [] }

def Trace.call (t : Trace) (c : Call) : Trace := { t with calls := t.calls ++ [c] }

def Trace.out (t : Trace) (o : Out) (s : String) : Trace :=
  { t with outs := t.outs ++ [(o, s)] }

def Call.questionOf : Call → Option String
  | .query q => some q
  | _ => none

/-- The questions submitted to the model, in issue order. -/
def Trace.questions (t : Trace) : List String := t.calls.filterMap Call.questionOf

/-- The script monad: state is the trace, errors are uncaught Python
exceptions.  An error keeps the trace accumulated so far. -/
def M (α : Type) : Type := Trace → Except String α × Trace

instance : Monad M where
  pure a := fun t => (Except.ok a, t)
  bind m f := fun t =>
    match m t with
    | (Except.ok a, t') => f a t'
    | (Except.error e, t') => (Except.error e, t')

/-- Lift an external call's result into the script: a raised exception
(`Except.error`) aborts the rest of the script, uncaught. -/
def M.lift {α : Type} (x : Except String α) : M α := fun t => (x, t)

def M.call (c : Call) : M Unit := fun t => (Except.ok (), t.call c)

def M.out (o : Out) (s : String) : M Unit := fun t => (Except.ok (), t.out o s)

/-- Run a render from the empty trace. -/
def M.run {α : Type} (m : M α) : Except String α × Trace := m Trace.empty

theorem M.bind_apply {α β : Type} (m : M α) (f : α → M β) (t : Trace) :
    (m >>= f) t = match m t with
      | (Except.ok a, t') => f a t'
      | (Except.error e, t') => (Except.error e, t') := rfl

theorem M.pure_apply {α : Type} (a : α) (t : Trace) :
    (pure a : M α) t = (Except.ok a, t) := rfl

/-! The prompt strings, transcribed literally from the source.  Python
juxtaposes adjacent string literals with no separator, so several words run
together exactly as below. -/

/-- The custom `text_qa_template` installed by `overview_report`. -/
def program_report_prompt : String :=
  "Context Information is below.\n" ++
  "----------------------------\n" ++
  "{context_str}\n" ++
  "----------------------------\n" ++
  "You're a very helpful data scientist. You create comprehensive and detailed long reports" ++
  "from large multi-page documents such that there's no need to read the original document and" ++
  "your generated report covers all the necessary data, quantitative and qualitative to assist" ++
  "with decision making. You should not miss any important information, you should mention all" ++
  "the numbers clearly, along with this you should output a very detailed history of the document," ++
  "and everything it entails. You should cover all the sections of the documents. Make the report as" ++
  "large and as detailed as possible. Pay special attention to risks, indicators and on generating a" ++
  "comprehensive report out of all wirkungsmatrix and appendix tables available in the report." ++
  "Respond in German. Don't mention the file name (temp_file.pdf) itself in your report."

/-- The question submitted by `overview_report`. -/
def overview_question : String :=
  "You're a very helpful data scientist. You create comprehensive and detailed long reports" ++
  "from large multi-page documents such that there's no need to read the original document and" ++
  "your generated report covers all the necessary data, quantitative and qualitative to assist" ++
  "with decision making. You should not miss any important information, you should mention all" ++
  "the numbers clearly, along with this you should output a very detailed history of the document," ++
  "and everything it entails. You should cover all the sections of the documents. Respond in German."

/-- The question submitted by `key_value_pairs`. -/
def key_value_question : String :=
  "Extract all the key-value pairs from the first 10 pages of " ++
  "the document. Make use of the KURZBESCHREIBUNG table data in order to display all the key-value pairs" ++
  "about the report in the table. This should necessarily include the title of the report, country, " ++
  "theme, year, duration, budget and all other information present in the KURZBESCHREIBUNG table." ++
  "Give the answer in the markdown format. Do NOT enclose this data within ``` ``` markers. If there's" ++
  "any missing field, you are allowed to use the header of the file and its content to fill it." ++
  "Respond in German."

/-- The question submitted by `risk_analysis`. -/
def risk_question : String :=
  "Determine whether the mission/program/project is at risk or not. Determine the level of risk associated" ++
  "with it. Give a comprehensive report on risk analysis of the document, necessarily listing all the reasons," ++
  "any recommendations that are provided for these risks in the documents and call to actions. Pay particular " ++
  "attention on the key indicators mentioned in the report and if there's any risk or anomaly there." ++
  "Respond in German."

/-- First question of the `wirkungsmatrix` pass. -/
def wirkungs_question1 : String :=
  "Detail all the data in Wirkungsmatrix des Moduls, including Ziele, Indikatoren, Quellen, Annahmen, " ++
  "Modulzielindikator, Programmzielindikator, Output, Outputindikator. Respond in German."

/-- Second question of the `wirkungsmatrix` pass. -/
def wirkungs_question2 : String :=
  "Detail all the data in Wirkungsmatrix des" ++
  "Moduls including Outputs, Wesentliche Aktivitäten zu Outputs, Inputs / Geplante Instrumente, Annahmen." ++
  "Respond in German."

/-- Third question of the `wirkungsmatrix` pass. -/
def wirkungs_question3 : String :=
  "Detail all the information in Wirkungslogik für ein Modul, including the connections and flows between " ++
  "Programmziel und Zeithorizont, Programmzielindikator, Modulziel und Zeithorizont, Modulzielindikator," ++
  "Output and which of these factors are dependent on or affect each other. Respond in German."

/-- Fourth question of the `wirkungsmatrix` pass. -/
def wirkungs_question4 : String :=
  "Detail all the information from Berichterstattung über die Kostenentwicklung in EUR, including " ++
  "Kostenzeile GIZ-Schema, Kostenschätzung laut Angebot (Planwert), Ist-Kosten kumuliert bis Berichtsstichtag, " ++
  "Bis zum Ende der Laufzeit verblei- bende Mittel, Erläuterung bei vorhersehbaren signifikanten Abweichungen " ++
  "von der Kostenschätzung*. Respond in German."

/-- Fifth question of the `wirkungsmatrix` pass. -/
def wirkungs_question5 : String :=
  "Detail all the information from Ist-Kosten und angepasste Prognose pro Output bilat./reg. Vorhaben. in German"

/-- Sixth question of the `wirkungsmatrix` pass. -/
def wirkungs_question6 : String :=
  "Detail all the information from Karte mit Kennzeichnung der projektregion in english. If there's a map" ++
  "involved, list all the countries the map is describing. Respond in German."

/-- The question submitted by `next_steps`. -/
def next_steps_question : String :=
  "List all the mentioned calls to actions and recommended steps mentioned in the document, arrange them" ++
  "according to highest risk and urgency, top to bottom. Apart from the recommended steps in the documents," ++
  "you should also include the assumptions and risks and the actions you think should be taken in order to " ++
  "make the program a success. Respond in German."

/-- The question submitted by `recommended_fields_generation`. -/
def recommended_fields_question : String :=
  "Now that you have a good look at the document, as a data analyst who needs to provide enough insight and data" ++
  "to your manager so they can make the correct data-driven decisions on all factors, what information and fields" ++
  " would be the most useful to you? Make a list of all such fields and give your reasons on why it would be" ++
  "useful in order for you to assist in making data driven decisions and always have insights into how the" ++
  "program is processing and drive it to success. Respond in German."

/-- The fixed instruction suffix that `user_query_answer` appends to the
user-supplied query before submitting it. -/
def user_query_suffix : String :=
  " Make the answer as detailed and as comprehensive as required." ++
  " Make sure to use the documents as context to answer the question." ++
  " If you cannot find an answer from the documents, tell the user to go through" ++
  "the original document they uploaded. Respond in German."

/-- The fallback line of the search branch. -/
def no_answer_message : String := "No answer found for your query."

/-! The script's functions, translated one-to-one from the source.  Each
external call is written as the call event followed by `M.lift` of the
service's result, so a raised exception propagates through the monad's
`bind` exactly as an uncaught Python exception unwinds the script. -/

/-- What `SimpleDirectoryReader` / `LlamaParse` find at a path: the content,
or a raised file-not-found error. -/
def readFile (fs : FS) (p : String) : Except String Content :=
  match FS.lookup fs p with
  | none => Except.error "file does not exist"
  | some c => Except.ok c

/-- `create_index(file_path)`: `SimpleDirectoryReader` on the path (raises
when the file does not exist or fails to parse), then
`VectorStoreIndex.from_documents`. -/
def create_index (svc : Services) (fs : FS) (file_path : String) : M svc.Index := do
  M.call (.load file_path)
  let content ← M.lift (readFile fs file_path)
  let docs ← M.lift (svc.loadData content)
  M.call .buildIndex
  pure (svc.fromDocuments docs)

/-- `overview_report(index)`: installs `program_report_prompt` as the
query engine's `text_qa_template` via `update_prompts`, queries, renders
into the Overview tab. -/
def overview_report (svc : Services) (index : svc.Index) : M String := do
  M.out .status "<p style=\"color: #3ae2a5;\">Generating Overview...</p>"
  M.call (.query overview_question)
  let overview ← M.lift (svc.queryEngine index (some program_report_prompt) overview_question)
  M.out .ovTab overview
  pure overview

/-- `key_value_pairs(index)`. -/
def key_value_pairs (svc : Services) (index : svc.Index) : M String := do
  M.out .status "<p style=\"color: #3ae2a5;\">Extracting KURZBESCHREIBUNG...</p>"
  M.call (.query key_value_question)
  let key_value_data ← M.lift (svc.queryEngine index none key_value_question)
  M.out .kvTab key_value_data
  pure key_value_data

/-- `risk_analysis(index)`. -/
def risk_analysis (svc : Services) (index : svc.Index) : M String := do
  M.out .status "<p style=\"color: #3ae2a5;\">Analysing Risks...</p>"
  M.call (.query risk_question)
  let risk_data ← M.lift (svc.queryEngine index none risk_question)
  M.out .rgTab risk_data
  pure risk_data

/-- `wirkungsmatrix(file_path)`: re-parses the file at `file_path` with
`LlamaParse` (markdown result type), builds a second index from the parsed
documents, submits the six Wirkungsmatrix questions against it, and renders
the six answers, in order, into the Wirkungsmatrix tab. -/
def wirkungsmatrix (svc : Services) (fs : FS) (file_path : String) : M (List String) := do
  M.out .status "<p style=\"color: #3ae2a5;\">Extracting Wirkungsmatrix...</p>"
  M.call (.parse file_path)
  let content ← M.lift (readFile fs file_path)
  let documents ← M.lift (svc.llamaParse content)
  M.call .buildIndex
  let index := svc.fromDocuments documents
  M.out .status "<p style=\"color: #3ae2a5;\">Gathering Insights from Wirkungsmatrix...</p>"
  M.call (.query wirkungs_question1)
  let wirkungsdata1 ← M.lift (svc.queryEngine index none wirkungs_question1)
  M.call (.query wirkungs_question2)
  let wirkungsdata2 ← M.lift (svc.queryEngine index none wirkungs_question2)
  M.call (.query wirkungs_question3)
  let wirkungsdata3 ← M.lift (svc.queryEngine index none wirkungs_question3)
  M.out .status "<p style=\"color: #3ae2a5;\">Halfway there...</p>"
  M.call (.query wirkungs_question4)
  let wirkungsdata4 ← M.lift (svc.queryEngine index none wirkungs_question4)
  M.call (.query wirkungs_question5)
  let wirkungsdata5 ← M.lift (svc.queryEngine index none wirkungs_question5)
  M.call (.query wirkungs_question6)
  let wirkungsdata6 ← M.lift (svc.queryEngine index none wirkungs_question6)
  let wirkungsdata := [wirkungsdata1, wirkungsdata2, wirkungsdata3,
                       wirkungsdata4, wirkungsdata5, wirkungsdata6]
  M.out .wTab wirkungsdata1
  M.out .wTab wirkungsdata2
  M.out .wTab wirkungsdata3
  M.out .wTab wirkungsdata4
  M.out .wTab wirkungsdata5
  M.out .wTab wirkungsdata6
  pure wirkungsdata

/-- `next_steps(index)`. -/
def next_steps (svc : Services) (index : svc.Index) : M String := do
  M.out .status "<p style=\"color: #3ae2a5;\">Recommending Actions...</p>"
  M.call (.query next_steps_question)
  let next_steps_data ← M.lift (svc.queryEngine index none next_steps_question)
  M.out .acTab next_steps_data
  pure next_steps_data

/-- `recommended_fields_generation(index)`: renders into the Suggestions tab,
column 1. -/
def recommended_fields_generation (svc : Services) (index : svc.Index) : M String := do
  M.out .status "<p style=\"color: #3ae2a5;\">Almost done...</p>"
  M.call (.query recommended_fields_question)
  let recommended_fields_data ← M.lift (svc.queryEngine index none recommended_fields_question)
  M.out .fTab recommended_fields_data
  pure recommended_fields_data

/-- `user_query_answer(index, user_query)`: submits the user's query with the
fixed instruction suffix appended. -/
def user_query_answer (svc : Services) (index : svc.Index) (user_query : String) : M String := do
  M.call (.query (user_query ++ user_query_suffix))
  M.lift (svc.queryEngine index none (user_query ++ user_query_suffix))

/-- `display_information_once()`: when a file is uploaded, builds the primary
index from the fixed path `temp_file.pdf` and runs the full question battery
(the Wirkungsmatrix pass re-parses the file itself; all other sections share
the primary index). -/
def display_information_once (svc : Services) (fs : FS) (uploaded_file : Option Content) :
    M Unit := do
  let file_path := "temp_file.pdf"
  match uploaded_file with
  | none => pure ()
  | some _ => do
    M.out .status "<p style=\"color: #3ae2a5;\">Creating Index...</p>"
    let query_index_ ← create_index svc fs file_path
    let _ ← overview_report svc query_index_
    let _ ← key_value_pairs svc query_index_
    let _ ← risk_analysis svc query_index_
    let _ ← wirkungsmatrix svc fs file_path
    let _ ← next_steps svc query_index_
    let _ ← recommended_fields_generation svc query_index_
    M.out .status "<p style=\"color: #3ae2a5;\">Processing complete!</p>"

/-- Lines 260–273 of the source: the module-top-level ad-hoc search branch
body, run when the session's `search_query` is truthy.  It builds a fresh
index from the hardcoded path `temp_file.pdf`, queries it through
`user_query_answer`, and renders either the answer or the fallback line. -/
def search_branch (svc : Services) (fs : FS) (search_query : String) : M String := do
  M.out .searchCol "<p style=\"color: #3ae2a5;\">Processing request...</p>"
  let filepath := "temp_file.pdf"
  let query_index ← create_index svc fs filepath
  let answer ← user_query_answer svc query_index search_query
  if answer ≠ "" then do
    M.out .searchCol "<p style=\"color: #3ae2a5;\">Found results!</p>"
    M.out .searchCol answer
    pure answer
  else do
    M.out .searchCol no_answer_message
    pure answer

/-- Lines 254–257 of the source: store the widget text under the session key
`search_query` when the key is absent or the text changed (the branch also
rebinds the local `uploaded_file` to `None`; nothing later reads it). -/
def update_session (session0 : Option String) (input_search_query : String) : Option String :=
  match session0 with
  | none => some input_search_query
  | some s => if input_search_query = s then some s else some input_search_query

/-- One render of the module-top-level script.  Inputs: the filesystem, the
previous session state at key `search_query` (`none` when absent), the
uploaded file (`none` when the file-picker is empty) and the current search
box text.  Returns the filesystem and session state left behind.

The source also rebinds the local `uploaded_file` to `None` when the search
text changed (line 256); nothing after that line reads `uploaded_file`, so
the rebinding is unobservable. -/
def render (svc : Services) (fs0 : FS) (session0 : Option String)
    (uploaded_file : Option Content) (input_search_query : String) :
    M (FS × Option String) := do
  M.out .main "<h1 style='text-align: center;'>📈 Portfolio Navigator </h1>"
  M.out .main " "
  M.out .main ("<p style='text-align: center;'>Upload your Document to Portfolio Navigator " ++
    "and get overview, insights, history and analysis.")
  M.out .status " "
  -- lines 242–252: the upload branch
  let fs1 ← match uploaded_file with
    | some bytes => do
      let fs1 := FS.write fs0 "temp_file.pdf" bytes
      M.out .status "File uploaded..."
      M.out .status "Processing..."
      display_information_once svc fs1 uploaded_file
      pure fs1
    | none => do
      M.out .main "<p style=\"color: #3ae2a5;\">Please upload a PDF file.</p>"
      pure fs0
  -- lines 254–257: conditional session-state update
  let session1 := update_session session0 input_search_query
  -- lines 259–273: the search branch, run when the stored query is truthy
  let stored := session1.getD ""
  if stored ≠ "" then do
    let _ ← search_branch svc fs1 stored
    pure (fs1, session1)
  else
    pure (fs1, session1)

/-! Reduction lemmas: how each script function composes with a continuation.
These rewrite a render into a tower of matches over the pure service
results, which the claim proofs then case on. -/

theorem M.out_bind {β : Type} (o : Out) (s : String) (k : Unit → M β) (t : Trace) :
    (M.out o s >>= k) t = k () (t.out o s) := rfl

theorem M.call_bind {β : Type} (c : Call) (k : Unit → M β) (t : Trace) :
    (M.call c >>= k) t = k () (t.call c) := rfl

theorem M.lift_bind {α β : Type} (x : Except String α) (k : α → M β) (t : Trace) :
    (M.lift x >>= k) t =
      match x with
      | Except.ok a => k a t
      | Except.error e => (Except.error e, t) := by
  cases x <;> rfl

theorem M.out_apply (o : Out) (s : String) (t : Trace) :
    M.out o s t = (Except.ok (), t.out o s) := rfl

theorem M.pure_bind {α β : Type} (a : α) (k : α → M β) (t : Trace) :
    ((pure a : M α) >>= k) t = k a t := rfl

theorem M.bind_assoc {α β γ : Type} (m : M α) (f : α → M β) (g : β → M γ) (t : Trace) :
    ((m >>= f) >>= g) t = (m >>= fun a => f a >>= g) t := by
  show (match (match m t with
      | (Except.ok a, t') => f a t'
      | (Except.error e, t') => (Except.error e, t')) with
    | (Except.ok a, t') => g a t'
    | (Except.error e, t') => (Except.error e, t')) = _
  rcases hm : m t with ⟨x, t'⟩
  show _ = (match m t with
    | (Except.ok a, t') => (f a >>= g) t'
    | (Except.error e, t') => (Except.error e, t'))
  rw [hm]
  cases x <;> rfl

theorem M.ite_bind {α β : Type} (c : Prop) [Decidable c] (m1 m2 : M α) (k : α → M β)
    (t : Trace) :
    ((if c then m1 else m2) >>= k) t = if c then (m1 >>= k) t else (m2 >>= k) t := by
  by_cases h : c <;> simp [h]

theorem M.ite_apply {α : Type} (c : Prop) [Decidable c] (m1 m2 : M α) (t : Trace) :
    (if c then m1 else m2) t = if c then m1 t else m2 t := by
  by_cases h : c <;> simp [h]

theorem readFile_write (fs : FS) (p : String) (c : Content) :
    readFile (FS.write fs p c) p = Except.ok c := by
  simp [readFile, FS.write, FS.lookup]

theorem create_index_bind {β : Type} (svc : Services) (fs : FS) (p : String)
    (k : svc.Index → M β) (t : Trace) :
    (create_index svc fs p >>= k) t =
      match readFile fs p with
      | Except.error e => (Except.error e, t.call (.load p))
      | Except.ok content =>
        match svc.loadData content with
        | Except.error e => (Except.error e, t.call (.load p))
        | Except.ok docs =>
          k (svc.fromDocuments docs) ((t.call (.load p)).call .buildIndex) := by
  cases hc : readFile fs p with
  | error e => simp only [create_index, M.bind_apply, M.call, M.lift, M.pure_apply, hc]
  | ok content =>
    cases hd : svc.loadData content <;>
      simp only [create_index, M.bind_apply, M.call, M.lift, M.pure_apply, hc, hd]

theorem overview_report_bind {β : Type} (svc : Services) (index : svc.Index)
    (k : String → M β) (t : Trace) :
    (overview_report svc index >>= k) t =
      match svc.queryEngine index (some program_report_prompt) overview_question with
      | Except.error e => (Except.error e,
          (t.out .status "<p style=\"color: #3ae2a5;\">Generating Overview...</p>").call
            (.query overview_question))
      | Except.ok overview => k overview
          (((t.out .status "<p style=\"color: #3ae2a5;\">Generating Overview...</p>").call
            (.query overview_question)).out .ovTab overview) := by
  cases hq : svc.queryEngine index (some program_report_prompt) overview_question <;>
    simp only [overview_report, M.bind_apply, M.out, M.call, M.lift, M.pure_apply, hq]

theorem key_value_pairs_bind {β : Type} (svc : Services) (index : svc.Index)
    (k : String → M β) (t : Trace) :
    (key_value_pairs svc index >>= k) t =
      match svc.queryEngine index none key_value_question with
      | Except.error e => (Except.error e,
          (t.out .status "<p style=\"color: #3ae2a5;\">Extracting KURZBESCHREIBUNG...</p>").call
            (.query key_value_question))
      | Except.ok a => k a
          (((t.out .status "<p style=\"color: #3ae2a5;\">Extracting KURZBESCHREIBUNG...</p>").call
            (.query key_value_question)).out .kvTab a) := by
  cases hq : svc.queryEngine index none key_value_question <;>
    simp only [key_value_pairs, M.bind_apply, M.out, M.call, M.lift, M.pure_apply, hq]

theorem risk_analysis_bind {β : Type} (svc : Services) (index : svc.Index)
    (k : String → M β) (t : Trace) :
    (risk_analysis svc index >>= k) t =
      match svc.queryEngine index none risk_question with
      | Except.error e => (Except.error e,
          (t.out .status "<p style=\"color: #3ae2a5;\">Analysing Risks...</p>").call
            (.query risk_question))
      | Except.ok a => k a
          (((t.out .status "<p style=\"color: #3ae2a5;\">Analysing Risks...</p>").call
            (.query risk_question)).out .rgTab a) := by
  cases hq : svc.queryEngine index none risk_question <;>
    simp only [risk_analysis, M.bind_apply, M.out, M.call, M.lift, M.pure_apply, hq]

theorem next_steps_bind {β : Type} (svc : Services) (index : svc.Index)
    (k : String → M β) (t : Trace) :
    (next_steps svc index >>= k) t =
      match svc.queryEngine index none next_steps_question with
      | Except.error e => (Except.error e,
          (t.out .status "<p style=\"color: #3ae2a5;\">Recommending Actions...</p>").call
            (.query next_steps_question))
      | Except.ok a => k a
          (((t.out .status "<p style=\"color: #3ae2a5;\">Recommending Actions...</p>").call
            (.query next_steps_question)).out .acTab a) := by
  cases hq : svc.queryEngine index none next_steps_question <;>
    simp only [next_steps, M.bind_apply, M.out, M.call, M.lift, M.pure_apply, hq]

theorem recommended_fields_generation_bind {β : Type} (svc : Services) (index : svc.Index)
    (k : String → M β) (t : Trace) :
    (recommended_fields_generation svc index >>= k) t =
      match svc.queryEngine index none recommended_fields_question with
      | Except.error e => (Except.error e,
          (t.out .status "<p style=\"color: #3ae2a5;\">Almost done...</p>").call
            (.query recommended_fields_question))
      | Except.ok a => k a
          (((t.out .status "<p style=\"color: #3ae2a5;\">Almost done...</p>").call
            (.query recommended_fields_question)).out .fTab a) := by
  cases hq : svc.queryEngine index none recommended_fields_question <;>
    simp only [recommended_fields_generation, M.bind_apply, M.out, M.call, M.lift,
      M.pure_apply, hq]

theorem wirkungsmatrix_bind {β : Type} (svc : Services) (fs : FS) (p : String)
    (k : List String → M β) (t : Trace) :
    (wirkungsmatrix svc fs p >>= k) t =
      match readFile fs p with
      | Except.error e => (Except.error e,
          { calls := t.calls ++ [.parse p],
            outs := t.outs ++
              [(.status, "<p style=\"color: #3ae2a5;\">Extracting Wirkungsmatrix...</p>")] })
      | Except.ok content =>
        match svc.llamaParse content with
        | Except.error e => (Except.error e,
            { calls := t.calls ++ [.parse p],
              outs := t.outs ++
                [(.status, "<p style=\"color: #3ae2a5;\">Extracting Wirkungsmatrix...</p>")] })
        | Except.ok documents =>
          let index := svc.fromDocuments documents
          let outs2 := t.outs ++
            [(.status, "<p style=\"color: #3ae2a5;\">Extracting Wirkungsmatrix...</p>"),
             (.status, "<p style=\"color: #3ae2a5;\">Gathering Insights from Wirkungsmatrix...</p>")]
          let outs3 := outs2 ++ [(.status, "<p style=\"color: #3ae2a5;\">Halfway there...</p>")]
          match svc.queryEngine index none wirkungs_question1 with
          | Except.error e => (Except.error e,
              { calls := t.calls ++ [.parse p, .buildIndex, .query wirkungs_question1],
                outs := outs2 })
          | Except.ok a1 =>
            match svc.queryEngine index none wirkungs_question2 with
            | Except.error e => (Except.error e,
                { calls := t.calls ++ [.parse p, .buildIndex, .query wirkungs_question1,
                    .query wirkungs_question2],
                  outs := outs2 })
            | Except.ok a2 =>
              match svc.queryEngine index none wirkungs_question3 with
              | Except.error e => (Except.error e,
                  { calls := t.calls ++ [.parse p, .buildIndex, .query wirkungs_question1,
                      .query wirkungs_question2, .query wirkungs_question3],
                    outs := outs2 })
              | Except.ok a3 =>
                match svc.queryEngine index none wirkungs_question4 with
                | Except.error e => (Except.error e,
                    { calls := t.calls ++ [.parse p, .buildIndex, .query wirkungs_question1,
                        .query wirkungs_question2, .query wirkungs_question3,
                        .query wirkungs_question4],
                      outs := outs3 })
                | Except.ok a4 =>
                  match svc.queryEngine index none wirkungs_question5 with
                  | Except.error e => (Except.error e,
                      { calls := t.calls ++ [.parse p, .buildIndex, .query wirkungs_question1,
                          .query wirkungs_question2, .query wirkungs_question3,
                          .query wirkungs_question4, .query wirkungs_question5],
                        outs := outs3 })
                  | Except.ok a5 =>
                    match svc.queryEngine index none wirkungs_question6 with
                    | Except.error e => (Except.error e,
                        { calls := t.calls ++ [.parse p, .buildIndex, .query wirkungs_question1,
                            .query wirkungs_question2, .query wirkungs_question3,
                            .query wirkungs_question4, .query wirkungs_question5,
                            .query wirkungs_question6],
                          outs := outs3 })
                    | Except.ok a6 =>
                      k [a1, a2, a3, a4, a5, a6]
                        { calls := t.calls ++ [.parse p, .buildIndex, .query wirkungs_question1,
                            .query wirkungs_question2, .query wirkungs_question3,
                            .query wirkungs_question4, .query wirkungs_question5,
                            .query wirkungs_question6],
                          outs := outs3 ++ [(.wTab, a1), (.wTab, a2), (.wTab, a3),
                            (.wTab, a4), (.wTab, a5), (.wTab, a6)] } := by
  cases hc : readFile fs p with
  | error e => simp [wirkungsmatrix, M.bind_apply, M.out, M.call, M.lift, M.pure_apply,
      Trace.call, Trace.out, hc]
  | ok content =>
  cases hl : svc.llamaParse content with
  | error e => simp [wirkungsmatrix, M.bind_apply, M.out, M.call, M.lift, M.pure_apply,
      Trace.call, Trace.out, hc, hl]
  | ok documents =>
  cases h1 : svc.queryEngine (svc.fromDocuments documents) none wirkungs_question1 with
  | error e => simp [wirkungsmatrix, M.bind_apply, M.out, M.call, M.lift, M.pure_apply,
      Trace.call, Trace.out, hc, hl, h1]
  | ok a1 =>
  cases h2 : svc.queryEngine (svc.fromDocuments documents) none wirkungs_question2 with
  | error e => simp [wirkungsmatrix, M.bind_apply, M.out, M.call, M.lift, M.pure_apply,
      Trace.call, Trace.out, hc, hl, h1, h2]
  | ok a2 =>
  cases h3 : svc.queryEngine (svc.fromDocuments documents) none wirkungs_question3 with
  | error e => simp [wirkungsmatrix, M.bind_apply, M.out, M.call, M.lift, M.pure_apply,
      Trace.call, Trace.out, hc, hl, h1, h2, h3]
  | ok a3 =>
  cases h4 : svc.queryEngine (svc.fromDocuments documents) none wirkungs_question4 with
  | error e => simp [wirkungsmatrix, M.bind_apply, M.out, M.call, M.lift, M.pure_apply,
      Trace.call, Trace.out, hc, hl, h1, h2, h3, h4]
  | ok a4 =>
  cases h5 : svc.queryEngine (svc.fromDocuments documents) none wirkungs_question5 with
  | error e => simp [wirkungsmatrix, M.bind_apply, M.out, M.call, M.lift, M.pure_apply,
      Trace.call, Trace.out, hc, hl, h1, h2, h3, h4, h5]
  | ok a5 =>
  cases h6 : svc.queryEngine (svc.fromDocuments documents) none wirkungs_question6 with
  | error e => simp [wirkungsmatrix, M.bind_apply, M.out, M.call, M.lift, M.pure_apply,
      Trace.call, Trace.out, hc, hl, h1, h2, h3, h4, h5, h6]
  | ok a6 => simp [wirkungsmatrix, M.bind_apply, M.out, M.call, M.lift, M.pure_apply,
      Trace.call, Trace.out, hc, hl, h1, h2, h3, h4, h5, h6]

theorem user_query_answer_bind {β : Type} (svc : Services) (index : svc.Index)
    (user_query : String) (k : String → M β) (t : Trace) :
    (user_query_answer svc index user_query >>= k) t =
      match svc.queryEngine index none (user_query ++ user_query_suffix) with
      | Except.error e => (Except.error e, t.call (.query (user_query ++ user_query_suffix)))
      | Except.ok a => k a (t.call (.query (user_query ++ user_query_suffix))) := by
  cases hq : svc.queryEngine index none (user_query ++ user_query_suffix) <;>
    simp only [user_query_answer, M.bind_apply, M.call, M.lift, M.pure_apply, hq]

theorem M.bind_pure {α : Type} (m : M α) (t : Trace) : (m >>= pure) t = m t := by
  show (match m t with
    | (Except.ok a, t') => ((pure a : M α) t' : Except String α × Trace)
    | (Except.error e, t') => (Except.error e, t')) = m t
  rcases m t with ⟨x, t'⟩
  cases x <;> rfl

theorem display_information_once_bind {β : Type} (svc : Services) (fs : FS)
    (u : Option Content) (k : Unit → M β) (t : Trace) :
    (display_information_once svc fs u >>= k) t =
      match display_information_once svc fs u t with
      | (Except.ok a, t') => k a t'
      | (Except.error e, t') => (Except.error e, t') := by
  rw [M.bind_apply]
  rcases display_information_once svc fs u t with ⟨x, t'⟩
  cases x <;> rfl

theorem search_branch_bind {β : Type} (svc : Services) (fs : FS) (q : String)
    (k : String → M β) (t : Trace) :
    (search_branch svc fs q >>= k) t =
      match search_branch svc fs q t with
      | (Except.ok a, t') => k a t'
      | (Except.error e, t') => (Except.error e, t') := by
  rw [M.bind_apply]
  rcases search_branch svc fs q t with ⟨x, t'⟩
  cases x <;> rfl

theorem update_session_eq (session0 : Option String) (input : String) :
    update_session session0 input = some input := by
  cases session0 with
  | none => rfl
  | some s =>
    by_cases h : input = s <;> simp [update_session, h]

/-! Derived vocabulary used by the statements below. -/

/-- The battery's question strings in issue order: overview, key-value
pairs, risk analysis, the six Wirkungsmatrix questions, next steps,
recommended fields. -/
def battery_questions : List String :=
  [overview_question, key_value_question, risk_question,
   wirkungs_question1, wirkungs_question2, wirkungs_question3,
   wirkungs_question4, wirkungs_question5, wirkungs_question6,
   next_steps_question, recommended_fields_question]

/-- The external call sequence of a successful upload analysis: one primary
index build, three primary queries, the specialized re-parse and second
build, six Wirkungsmatrix queries, two more primary queries. -/
def battery_calls : List Call :=
  [.load "temp_file.pdf", .buildIndex,
   .query overview_question, .query key_value_question, .query risk_question,
   .parse "temp_file.pdf", .buildIndex,
   .query wirkungs_question1, .query wirkungs_question2, .query wirkungs_question3,
   .query wirkungs_question4, .query wirkungs_question5, .query wirkungs_question6,
   .query next_steps_question, .query recommended_fields_question]

/-- Spec-side definition (for the refinement claim), following the spec's
words: the primary index is "derived, in-memory, rebuilt from scratch per
upload" from the uploaded document's content, by the upload pipeline's
loader and index builder. -/
def primary_index (svc : Services) (content : Content) : Except String svc.Index :=
  (svc.loadData content).map svc.fromDocuments

/-- Spec-side definition: the result of answering the user's question `q`
against the primary index (with the suffix `user_query_answer` appends). -/
def primary_index_answer (svc : Services) (content : Content) (q : String) :
    Except String String :=
  match primary_index svc content with
  | .error e => .error e
  | .ok idx => svc.queryEngine idx none (q ++ user_query_suffix)

/-- A concrete services instance on trivial documents, with every model
query answered by `f`; used to evaluate the development on closed inputs. -/
def svcOf (f : String → Except String String) : Services where
  Doc := Unit
  Index := Unit
  loadData := fun _ => .ok [()]
  fromDocuments := fun _ => ()
  queryEngine := fun _ _ q => f q
  llamaParse := fun _ => .ok [()]

/-- Concrete services answering every query with `"antwort"`. -/
def svc0 : Services := svcOf (fun _ => Except.ok "antwort")

/-- Concrete services raising on the risk-analysis query only. -/
def svcRiskFail : Services :=
  svcOf (fun q => if q = risk_question then Except.error "model failure" else Except.ok "antwort")

/-- Concrete services answering every query with the empty string. -/
def svcEmpty : Services := svcOf (fun _ => Except.ok "")

/-- A filesystem holding one uploaded document at the fixed temp path. -/
def fsW : FS := [("temp_file.pdf", "inhalt")]

/-! Helper lemmas shared by the claim theorems. -/

theorem battery_calls_questions :
    battery_calls.filterMap Call.questionOf = battery_questions := rfl

/-- A successful upload analysis issues exactly the fixed call sequence. -/
theorem display_ok_calls (svc : Services) (fs : FS) (b : Content) (t0 : Trace)
    (v : Unit) (t : Trace)
    (h : display_information_once svc fs (some b) t0 = (Except.ok v, t)) :
    t.calls = t0.calls ++ battery_calls := by
  simp only [display_information_once,
    create_index_bind, overview_report_bind, key_value_pairs_bind, risk_analysis_bind,
    wirkungsmatrix_bind, next_steps_bind, recommended_fields_generation_bind,
    M.out_bind, M.call_bind, M.lift_bind, M.out_apply] at h
  repeat' split at h
  all_goals simp only [Prod.mk.injEq] at h
  all_goals obtain ⟨h1, h2⟩ := h
  all_goals first
    | (exact Except.noConfusion h1)
    | (subst h2
       simp [battery_calls, Trace.call, Trace.out])

/-- What a successful run of the search branch consists of. -/
theorem search_branch_ok (svc : Services) (fs : FS) (q : String) (t0 : Trace)
    (a : String) (t : Trace)
    (h : search_branch svc fs q t0 = (Except.ok a, t)) :
    ∃ content docs,
      readFile fs "temp_file.pdf" = Except.ok content ∧
      svc.loadData content = Except.ok docs ∧
      svc.queryEngine (svc.fromDocuments docs) none (q ++ user_query_suffix) = Except.ok a ∧
      t.calls = t0.calls ++
        [.load "temp_file.pdf", .buildIndex, .query (q ++ user_query_suffix)] ∧
      t.outs = t0.outs ++
        ((.searchCol, "<p style=\"color: #3ae2a5;\">Processing request...</p>") ::
          (if a ≠ "" then
            [(.searchCol, "<p style=\"color: #3ae2a5;\">Found results!</p>"), (.searchCol, a)]
           else [(.searchCol, no_answer_message)])) := by
  simp only [search_branch, create_index_bind, user_query_answer_bind,
    M.out_bind, M.call_bind, M.lift_bind, M.out_apply, ite_apply, apply_ite] at h
  repeat' split at h
  all_goals injection h with h1 h2
  all_goals first
    | (exact Except.noConfusion h1)
    | (injection h1 with h1
       subst h1
       subst h2
       exact ⟨_, _, by assumption, by assumption, by assumption,
         by simp [Trace.call, Trace.out],
         by simp_all [Trace.call, Trace.out]⟩)

/-! The claims. -/

/-- C1: for every render in which the session search query is non-empty and
which completes without an exception, the answer shown in the search column
equals the result of querying the primary index — the index the upload
pipeline builds from the temp file's content with the loader and
`VectorStoreIndex.from_documents` — with the user's question (as submitted
by `user_query_answer`); an empty answer shows the fallback line instead.
The branch does build its own index object, but with the deterministic
services (the model runs at temperature 0) that index coincides with the
primary one, so the displayed answer is exactly the primary-index answer. -/
theorem adhoc_query_uses_primary_index (svc : Services) (fs0 : FS) (s0 : Option String)
    (up : Option Content) (input : String) (v : FS × Option String) (t : Trace)
    (hne : input ≠ "")
    (h : M.run (render svc fs0 s0 up input) = (Except.ok v, t)) :
    ∃ content answer,
      readFile v.1 "temp_file.pdf" = Except.ok content ∧
      primary_index_answer svc content input = Except.ok answer ∧
      (if answer ≠ "" then (Out.searchCol, answer) ∈ t.outs
       else (Out.searchCol, no_answer_message) ∈ t.outs) := by
  cases up with
  | none =>
    simp only [M.run, render, M.out_bind, M.call_bind, M.lift_bind, M.out_apply,
      M.pure_bind, M.pure_apply, M.bind_assoc, M.ite_bind, M.ite_apply, search_branch_bind,
      update_session_eq, Option.getD, ne_eq, hne, not_false_iff, if_true, ite_true] at h
    split at h
    all_goals injection h with h1 h2
    all_goals first
      | (exact Except.noConfusion h1)
      | (injection h1 with h1
         subst h1
         subst h2
         rename_i ans tr heq
         obtain ⟨content, docs, hc, hd, hq, hcalls, houts⟩ :=
           search_branch_ok _ _ _ _ _ _ heq
         refine ⟨content, ans, hc, ?_, ?_⟩
         · simp only [primary_index_answer, primary_index, hd, Except.map]
           exact hq
         · rw [houts]
           by_cases ha : ans = "" <;> simp [ha])
  | some b =>
    simp only [M.run, render, M.out_bind, M.call_bind, M.lift_bind, M.out_apply,
      M.pure_bind, M.pure_apply, M.bind_assoc, M.ite_bind, M.ite_apply, search_branch_bind,
      display_information_once_bind,
      update_session_eq, Option.getD, ne_eq, hne, not_false_iff, if_true, ite_true] at h
    split at h
    all_goals try (injection h with h1 h2; exact Except.noConfusion h1)
    split at h
    all_goals injection h with h1 h2
    all_goals first
      | (exact Except.noConfusion h1)
      | (injection h1 with h1
         subst h1
         subst h2
         rename_i ans tr heq
         obtain ⟨content, docs, hc, hd, hq, hcalls, houts⟩ :=
           search_branch_ok _ _ _ _ _ _ heq
         refine ⟨content, ans, hc, ?_, ?_⟩
         · simp only [primary_index_answer, primary_index, hd, Except.map]
           exact hq
         · rw [houts]
           by_cases ha : ans = "" <;> simp [ha])

set_option maxRecDepth 8000 in
/-- Witness for C1 at a concrete render: services answering "antwort", the
temp file present, search text "frage", no upload. -/
theorem adhoc_query_uses_primary_index_witness :
    ∃ content answer,
      readFile fsW "temp_file.pdf" = Except.ok content ∧
      primary_index_answer svc0 content "frage" = Except.ok answer ∧
      (if answer ≠ "" then
        (Out.searchCol, answer) ∈ (M.run (render svc0 fsW none none "frage")).2.outs
       else (Out.searchCol, no_answer_message) ∈
         (M.run (render svc0 fsW none none "frage")).2.outs) :=
  adhoc_query_uses_primary_index svc0 fsW none none "frage" _ _ (by decide) rfl

set_option maxRecDepth 8000 in
/-- C2, counterexample: two consecutive renders of one session with the same
non-empty search text "frage" and no new upload.  The first render stores
the text in the session and leaves the filesystem unchanged; the claim says
the second render must not re-invoke the ad-hoc query path, yet the second
render's trace shows a fresh index build and a fresh model query for the
search box. -/
theorem search_rerun_counterexample :
    (M.run (render svc0 fsW none none "frage")).1 = Except.ok (fsW, some "frage") ∧
    (M.run (render svc0 fsW (some "frage") none "frage")).2.calls =
      [.load "temp_file.pdf", .buildIndex, .query ("frage" ++ user_query_suffix)] := by
  constructor <;> rfl

/-- C2, amended: on every render whose session search query is non-empty the
ad-hoc query path IS re-invoked, even when the search text is unchanged from
the previous render — the script has no change detection before the search
branch, so the second of two consecutive renders with the same text starts a
fresh `SimpleDirectoryReader` load (and, when it succeeds, a fresh index
build and model query). -/
theorem search_rerun_on_unchanged_query (svc : Services) (fs : FS) (input : String)
    (hne : input ≠ "") :
    ∃ rest, (M.run (render svc fs (some input) none input)).2.calls =
      Call.load "temp_file.pdf" :: rest := by
  simp only [M.run, render, search_branch, create_index_bind, user_query_answer_bind,
    M.out_bind, M.call_bind, M.lift_bind, M.out_apply, M.pure_bind, M.pure_apply,
    M.bind_assoc, M.ite_bind, M.ite_apply, update_session_eq, Option.getD, ne_eq, hne,
    not_false_iff, if_true, ite_true]
  cases hc : readFile fs "temp_file.pdf" with
  | error e => exact ⟨[], by simp [hc, M.pure_bind, M.out_bind, M.bind_assoc, M.ite_bind,
      Trace.call, Trace.out, Trace.empty]⟩
  | ok content =>
    cases hd : svc.loadData content with
    | error e => exact ⟨[], by simp [hc, hd, M.pure_bind, M.out_bind, M.bind_assoc,
        M.ite_bind, Trace.call, Trace.out, Trace.empty]⟩
    | ok docs =>
      cases hq : svc.queryEngine (svc.fromDocuments docs) none (input ++ user_query_suffix) with
      | error e =>
        exact ⟨[.buildIndex, .query (input ++ user_query_suffix)],
          by simp [hc, hd, hq, M.pure_bind, M.out_bind, M.bind_assoc, M.ite_bind,
            Trace.call, Trace.out, Trace.empty]⟩
      | ok a =>
        by_cases ha : a = "" <;>
          exact ⟨[.buildIndex, .query (input ++ user_query_suffix)],
            by simp [hc, hd, hq, ha, M.pure_bind, M.out_bind, M.bind_assoc, M.ite_bind,
              M.pure_apply, Trace.call, Trace.out, Trace.empty]⟩

/-- Witness for the amended C2 at a concrete unchanged-query render. -/
theorem search_rerun_on_unchanged_query_witness :
    ∃ rest, (M.run (render svc0 fsW (some "frage") none "frage")).2.calls =
      Call.load "temp_file.pdf" :: rest :=
  search_rerun_on_unchanged_query svc0 fsW "frage" (by decide)

/-- C3: when the free-text query path runs and its loader and query succeed,
no exception escapes the branch: an empty (falsy) answer renders the literal
fallback line "No answer found for your query.", a non-empty answer renders
the answer text (after the "Found results!" status line). -/
theorem search_branch_fallback_or_answer (svc : Services) (fs : FS) (q : String) (t0 : Trace)
    (content : Content) (docs : List svc.Doc) (a : String)
    (hc : readFile fs "temp_file.pdf" = Except.ok content)
    (hd : svc.loadData content = Except.ok docs)
    (hq : svc.queryEngine (svc.fromDocuments docs) none (q ++ user_query_suffix) = Except.ok a) :
    search_branch svc fs q t0 = (Except.ok a,
      { calls := t0.calls ++ [.load "temp_file.pdf", .buildIndex, .query (q ++ user_query_suffix)],
        outs := t0.outs ++
          ((.searchCol, "<p style=\"color: #3ae2a5;\">Processing request...</p>") ::
            (if a ≠ "" then
              [(.searchCol, "<p style=\"color: #3ae2a5;\">Found results!</p>"), (.searchCol, a)]
             else [(.searchCol, no_answer_message)])) }) := by
  simp only [search_branch, create_index_bind, user_query_answer_bind,
    M.out_bind, M.call_bind, M.lift_bind, M.out_apply, M.ite_bind, M.ite_apply, hc, hd, hq]
  by_cases ha : a = "" <;> simp [ha, M.pure_apply, Trace.call, Trace.out]

/-- Witness for C3 at a concrete falsy-answer query: services that answer
every query with the empty string; the fallback line is rendered and the
branch returns normally. -/
theorem search_branch_fallback_or_answer_witness :
    search_branch svcEmpty fsW "frage" Trace.empty = (Except.ok "",
      { calls := [.load "temp_file.pdf", .buildIndex, .query ("frage" ++ user_query_suffix)],
        outs := [(.searchCol, "<p style=\"color: #3ae2a5;\">Processing request...</p>"),
                 (.searchCol, no_answer_message)] }) := by
  have := search_branch_fallback_or_answer svcEmpty fsW "frage" Trace.empty "inhalt" [()] ""
    rfl rfl rfl
  simpa [Trace.empty] using this

/-- C4: the question battery is issued in one fixed order — overview,
key-value pairs, risk analysis, the six Wirkungsmatrix questions, next
steps, recommended fields — independent of the document: any two completed
upload analyses, over any services and any two documents, issue the
identical sequence of question strings, namely `battery_questions`. -/
theorem battery_question_order_fixed (svc1 svc2 : Services) (fs1 fs2 : FS)
    (b1 b2 : Content) (v1 v2 : Unit) (t1 t2 : Trace)
    (h1 : display_information_once svc1 fs1 (some b1) Trace.empty = (Except.ok v1, t1))
    (h2 : display_information_once svc2 fs2 (some b2) Trace.empty = (Except.ok v2, t2)) :
    t1.questions = t2.questions ∧ t1.questions = battery_questions := by
  have c1 := display_ok_calls _ _ _ _ _ _ h1
  have c2 := display_ok_calls _ _ _ _ _ _ h2
  constructor
  · simp [Trace.questions, c1, c2]
  · simp [Trace.questions, c1, Trace.empty, battery_calls_questions]

/-- Witness for C4 at a concrete completed analysis. -/
theorem battery_question_order_fixed_witness :
    (M.run (display_information_once svc0 fsW (some "inhalt"))).2.questions =
      battery_questions :=
  (battery_question_order_fixed svc0 svc0 fsW fsW "inhalt" "inhalt" () () _ _ rfl rfl).2

set_option maxHeartbeats 1000000 in
/-- C5: re-uploading overwrites the fixed temp path (looking the path up
after the write returns the new bytes), and an upload-triggered analysis is
computed only from the uploaded bytes: two renders that upload the same
bytes over any two prior filesystems produce the same trace — the same
external calls and the same rendered answers — and the same session state,
so nothing of a previous upload's index or bytes leaks into the result. -/
theorem second_upload_analysis_independent (svc : Services) (fs1 fs2 : FS)
    (s0 : Option String) (b : Content) (input : String) :
    Except.map Prod.snd (M.run (render svc fs1 s0 (some b) input)).1 =
      Except.map Prod.snd (M.run (render svc fs2 s0 (some b) input)).1 ∧
    (M.run (render svc fs1 s0 (some b) input)).2 = (M.run (render svc fs2 s0 (some b) input)).2 ∧
    FS.lookup (FS.write fs1 "temp_file.pdf" b) "temp_file.pdf" = some b := by
  refine ⟨?_, ?_, by simp [FS.write, FS.lookup]⟩ <;>
  · simp only [M.run, render, display_information_once, search_branch,
      create_index_bind, overview_report_bind, key_value_pairs_bind, risk_analysis_bind,
      wirkungsmatrix_bind, next_steps_bind, recommended_fields_generation_bind,
      user_query_answer_bind, M.out_bind, M.call_bind, M.lift_bind, M.out_apply,
      M.pure_bind, M.pure_apply, M.bind_assoc, M.ite_bind, M.ite_apply, update_session_eq,
      Option.getD, readFile_write]
    repeat' split
    all_goals rfl

/-- C6: a completed Wirkungsmatrix pass re-parses the file at the same fixed
path with the second external parser (`LlamaParse`, markdown result type),
builds a second index from those parsed documents alone, issues exactly the
six fixed Wirkungsmatrix questions against that index, and renders the six
answers into the Wirkungsmatrix tab in issue order. -/
theorem wirkungsmatrix_second_pass (svc : Services) (fs : FS) (t0 : Trace)
    (v : List String) (t : Trace)
    (h : wirkungsmatrix svc fs "temp_file.pdf" t0 = (Except.ok v, t)) :
    ∃ content documents a1 a2 a3 a4 a5 a6,
      readFile fs "temp_file.pdf" = Except.ok content ∧
      svc.llamaParse content = Except.ok documents ∧
      svc.queryEngine (svc.fromDocuments documents) none wirkungs_question1 = Except.ok a1 ∧
      svc.queryEngine (svc.fromDocuments documents) none wirkungs_question2 = Except.ok a2 ∧
      svc.queryEngine (svc.fromDocuments documents) none wirkungs_question3 = Except.ok a3 ∧
      svc.queryEngine (svc.fromDocuments documents) none wirkungs_question4 = Except.ok a4 ∧
      svc.queryEngine (svc.fromDocuments documents) none wirkungs_question5 = Except.ok a5 ∧
      svc.queryEngine (svc.fromDocuments documents) none wirkungs_question6 = Except.ok a6 ∧
      v = [a1, a2, a3, a4, a5, a6] ∧
      t.calls = t0.calls ++ [.parse "temp_file.pdf", .buildIndex,
        .query wirkungs_question1, .query wirkungs_question2, .query wirkungs_question3,
        .query wirkungs_question4, .query wirkungs_question5, .query wirkungs_question6] ∧
      t.outs = t0.outs ++
        [(.status, "<p style=\"color: #3ae2a5;\">Extracting Wirkungsmatrix...</p>"),
         (.status, "<p style=\"color: #3ae2a5;\">Gathering Insights from Wirkungsmatrix...</p>"),
         (.status, "<p style=\"color: #3ae2a5;\">Halfway there...</p>"),
         (.wTab, a1), (.wTab, a2), (.wTab, a3), (.wTab, a4), (.wTab, a5), (.wTab, a6)] := by
  rw [← M.bind_pure (wirkungsmatrix svc fs "temp_file.pdf") t0, wirkungsmatrix_bind] at h
  simp only [M.pure_apply] at h
  repeat' split at h
  all_goals injection h with h1 h2
  all_goals first
    | (exact Except.noConfusion h1)
    | (injection h1 with h1
       subst h1
       subst h2
       exact ⟨_, _, _, _, _, _, _, _, by assumption, by assumption, by assumption,
         by assumption, by assumption, by assumption, by assumption, by assumption,
         rfl, by simp, by simp⟩)

/-- Witness for C6 at a concrete completed pass. -/
theorem wirkungsmatrix_second_pass_witness :
    (M.run (wirkungsmatrix svc0 fsW "temp_file.pdf")).2.calls =
      [.parse "temp_file.pdf", .buildIndex,
       .query wirkungs_question1, .query wirkungs_question2, .query wirkungs_question3,
       .query wirkungs_question4, .query wirkungs_question5, .query wirkungs_question6] := by
  obtain ⟨c, d, a1, a2, a3, a4, a5, a6, -, -, -, -, -, -, -, -, -, hcalls, -⟩ :=
    wirkungsmatrix_second_pass svc0 fsW Trace.empty _ _ rfl
  simpa [Trace.empty] using hcalls

/-- C7: no failure in the analysis pipeline is caught: when the upload
analysis ends in an exception (the result is an error — the model has no
handler, so the exception propagates out of `display_information_once`
uncaught), the calls issued are an in-order prefix of the full battery
sequence and the questions issued are an in-order prefix of the fixed
question list — everything after the failing call was never issued. -/
theorem battery_failure_aborts_rest (svc : Services) (fs : FS) (b : Content)
    (e : String) (t : Trace)
    (h : display_information_once svc fs (some b) Trace.empty = (Except.error e, t)) :
    List.IsPrefix t.calls battery_calls ∧ List.IsPrefix t.questions battery_questions := by
  simp only [display_information_once,
    create_index_bind, overview_report_bind, key_value_pairs_bind, risk_analysis_bind,
    wirkungsmatrix_bind, next_steps_bind, recommended_fields_generation_bind,
    M.out_bind, M.call_bind, M.lift_bind, M.out_apply] at h
  repeat' split at h
  all_goals injection h with h1 h2
  all_goals first
    | (exact Except.noConfusion h1)
    | (subst h2
       constructor
       · simp [Trace.call, Trace.out, Trace.empty, battery_calls,
           List.cons_prefix_cons, List.nil_prefix]
       · simp [Trace.questions, Trace.call, Trace.out, Trace.empty, Call.questionOf,
           battery_questions, List.cons_prefix_cons, List.nil_prefix])

set_option maxRecDepth 8000 in
/-- Witness for C7 with services whose risk-analysis query raises: the
questions issued stop at the risk question. -/
theorem battery_failure_aborts_rest_witness :
    List.IsPrefix
      ((M.run (display_information_once svcRiskFail fsW (some "inhalt"))).2.questions)
      battery_questions :=
  (battery_failure_aborts_rest svcRiskFail fsW "inhalt" "model failure" _ rfl).2

/-- C8: a completed upload analysis performs its external calls strictly one
after another, as the single totally-ordered call sequence `battery_calls`:
the primary index build (load then build), then the battery's model queries
across both passes, with the specialized re-parse and second build between
the third and fourth query.  Exactly 11 model queries are issued (the
spec's "approximately 13" also counts the index builds); the trace is a
linear sequence, so no call is issued before the previous one returned and
no two queries overlap. -/
theorem upload_analysis_sequential_calls (svc : Services) (fs : FS) (b : Content)
    (v : Unit) (t : Trace)
    (h : display_information_once svc fs (some b) Trace.empty = (Except.ok v, t)) :
    t.calls = battery_calls ∧ (t.calls.filterMap Call.questionOf).length = 11 := by
  have c := display_ok_calls _ _ _ _ _ _ h
  have c' : t.calls = battery_calls := by simpa [Trace.empty] using c
  refine ⟨c', ?_⟩
  rw [c', battery_calls_questions]
  rfl

/-- Witness for C8 at a concrete completed analysis. -/
theorem upload_analysis_sequential_calls_witness :
    (M.run (display_information_once svc0 fsW (some "inhalt"))).2.calls = battery_calls :=
  (upload_analysis_sequential_calls svc0 fsW "inhalt" () _ rfl).1

set_option maxRecDepth 8000 in
/-- C9: `user_query_answer` never submits the user's text verbatim: the one
query it issues is the user's text with the fixed instruction suffix
appended (detailed answer, grounded in the documents, referral to the
original document when no answer is found, in German), and that submitted
prompt always differs from the user's text. -/
theorem user_query_suffix_appended (svc : Services) (index : svc.Index) (q : String)
    (t0 : Trace) :
    (user_query_answer svc index q t0).2.calls = t0.calls ++ [.query (q ++ user_query_suffix)] ∧
    q ++ user_query_suffix ≠ q := by
  constructor
  · simp [user_query_answer, M.call_bind, M.lift, Trace.call]
  · intro hcontra
    have hlen := congrArg String.length hcontra
    rw [String.length_append] at hlen
    have hpos : 0 < user_query_suffix.length := by decide
    omega

/-- C10: the ad-hoc search path runs whenever the session search query is
non-empty, with no upload required: when no file exists at the hardcoded
path "temp_file.pdf" the render still attempts the loader (the only external
call of the render), the loader's exception escapes uncaught as the render's
result, and the fallback line "No answer found for your query." is never
rendered. -/
theorem search_without_upload_uncaught (svc : Services) (s0 : Option String) (input : String)
    (fs : FS) (hmiss : FS.lookup fs "temp_file.pdf" = none) (hne : input ≠ "") :
    (M.run (render svc fs s0 none input)).1 = Except.error "file does not exist" ∧
    (M.run (render svc fs s0 none input)).2.calls = [Call.load "temp_file.pdf"] ∧
    (Out.searchCol, no_answer_message) ∉ (M.run (render svc fs s0 none input)).2.outs := by
  simp only [M.run, render, search_branch, create_index_bind, user_query_answer_bind,
    M.out_bind, M.call_bind, M.lift_bind, M.out_apply, M.pure_bind, M.pure_apply,
    M.bind_assoc, M.ite_bind, M.ite_apply, update_session_eq, Option.getD, ne_eq, hne,
    not_false_iff, if_true, ite_true, readFile, hmiss]
  refine ⟨by trivial, by simp [Trace.call, Trace.out, Trace.empty], ?_⟩
  simp [Trace.call, Trace.out, Trace.empty, no_answer_message]

/-- Witness for C10 at a concrete render with an empty filesystem. -/
theorem search_without_upload_uncaught_witness :
    (M.run (render svc0 [] none none "frage")).1 = Except.error "file does not exist" ∧
    (M.run (render svc0 [] none none "frage")).2.calls = [Call.load "temp_file.pdf"] ∧
    (Out.searchCol, no_answer_message) ∉ (M.run (render svc0 [] none none "frage")).2.outs :=
  search_without_upload_uncaught svc0 none "frage" [] rfl (by decide)

end PortfolioNavigator
